import Mathlib

/-!
Shallow embedding of the session / HTTP-transport layer of `mcp-amdsmi`
(`src/mcp_amdsmi/session_manager.py` and `src/mcp_amdsmi/http_transport.py`),
together with theorems settling the frozen claims about it.

Python dictionaries are modelled as association lists (first binding of a key
is the authoritative one, as keys are unique in a Python dict), JSON values as
the inductive `JValue`, timestamps as integers (only order and subtraction of
`time.time()` values matter to the code), and raised exceptions as `Except`
errors.
-/

/-- JSON values as parsed by `json.loads`. -/
inductive JValue where
  | null : JValue
  | bool (b : Bool) : JValue
  | num (n : Int) : JValue
  | str (s : String) : JValue
  | arr (xs : List JValue) : JValue
  | obj (fields : List (String × JValue)) : JValue
deriving Repr

/-- Association-list lookup: `d.get(k)` on a Python dict. -/
def alget {α : Type} : List (String × α) → String → Option α
  | [], _ => none
  | (k', v) :: rest, k => if k' = k then some v else alget rest k

/-- `k in d` on a Python dict. -/
def alhas {α : Type} (m : List (String × α)) (k : String) : Bool :=
  (alget m k).isSome

/-- `d[k] = v` on a Python dict: replaces in place, or appends a new binding
(matching Python's insertion-order semantics). -/
def alset {α : Type} : List (String × α) → String → α → List (String × α)
  | [], k, v => [(k, v)]
  | (k', v') :: rest, k, v =>
      if k' = k then (k, v) :: rest else (k', v') :: alset rest k v

/-- `del d[k]` on a Python dict (the key occurs at most once). -/
def aldel {α : Type} : List (String × α) → String → List (String × α)
  | [], _ => []
  | (k', v) :: rest, k => if k' = k then rest else (k', v) :: aldel rest k

/-- `d.update(new)` on a Python dict. -/
def dictUpdate {α : Type} (d new : List (String × α)) : List (String × α) :=
  new.foldl (fun acc kv => alset acc kv.1 kv.2) d

/-- `Char`-list prefix test. -/
def listIsPrefix : List Char → List Char → Bool
  | [], _ => true
  | _ :: _, [] => false
  | a :: as, b :: bs => a = b && listIsPrefix as bs

/-- Python's `s.startswith(pre)` (kernel-reducible, unlike
`String.startsWith`). -/
def strStartsWith (s pre : String) : Bool :=
  listIsPrefix pre.toList s.toList

/-- Lookup of a field of a JSON object: `j.get(k)` when `j` is a dict,
`none` when the field is missing (callers decide what non-objects mean). -/
def jget : JValue → String → Option JValue
  | .obj fields, k => alget fields k
  | _, _ => none

/-- Python truthiness of a JSON value (`if not x`). -/
def truthy : JValue → Bool
  | .null => false
  | .bool b => b
  | .num n => n ≠ 0
  | .str s => s ≠ ""
  | .arr xs => !xs.isEmpty
  | .obj fields => !fields.isEmpty

/-- Python `str(...)` on the JSON values that the transport interpolates into
f-strings (request ids are numbers or strings in practice). -/
def pyStr : JValue → String
  | .null => "None"
  | .bool b => if b then "True" else "False"
  | .num n => toString n
  | .str s => s
  | .arr _ => "<list>"
  | .obj _ => "<dict>"

-- `example` smoke checks
example : alget [("a", (1 : Int)), ("b", 2)] "b" = some 2 := by decide
example : alset [("a", (1 : Int)), ("b", 2)] "a" 7 = [("a", 7), ("b", 2)] := by decide
example : dictUpdate [("a", (1 : Int))] [("b", 2), ("a", 3)] = [("a", 3), ("b", 2)] := by decide

/-! ## `session_manager.py` -/

/-- `Session` dataclass (`session_manager.py`).  Timestamps are integers
standing for `time.time()` values; `capabilities` is any JSON value because
`_handle_initialize` assigns the client-sent value to it unchecked. -/
structure Session where
  session_id : String
  created_at : Int
  last_accessed : Int
  client_info : List (String × JValue)
  capabilities : JValue
  context : List (String × JValue)
deriving Repr

/-- `Session.is_expired`: `time.time() - self.last_accessed > timeout`.
`now` stands for the `time.time()` call. -/
def Session.is_expired (s : Session) (now : Int) (timeout : Int) : Bool :=
  now - s.last_accessed > timeout

/-- `Session.update_access_time`: `self.last_accessed = time.time()`. -/
def Session.update_access_time (s : Session) (now : Int) : Session :=
  { s with last_accessed := now }

/-- Mutable state of a `SessionManager` instance. -/
structure SessionManager where
  session_timeout : Int
  cleanup_interval : Int
  sessions : List (String × Session)
  last_cleanup : Int
deriving Repr

/-- `SessionManager._cleanup_expired_sessions`: a no-op unless
`cleanup_interval` has elapsed since `last_cleanup`, otherwise deletes every
expired record and stamps `last_cleanup`. -/
def SessionManager.cleanup_expired_sessions (mgr : SessionManager) (now : Int) :
    SessionManager :=
  if now - mgr.last_cleanup < mgr.cleanup_interval then mgr
  else
    { mgr with
      sessions := mgr.sessions.filter fun kv => !kv.2.is_expired now mgr.session_timeout,
      last_cleanup := now }

/-- `SessionManager.create_session`.  `fresh_id` stands for the value returned
by `generate_session_id()` (modelled separately, see `generate_session_id`);
`now` for `time.time()`.  Returns the new session and the updated manager
(insertion, then the opportunistic cleanup sweep). -/
def SessionManager.create_session (mgr : SessionManager) (now : Int)
    (fresh_id : String) (client_info : List (String × JValue))
    (capabilities : JValue) : Session × SessionManager :=
  let session : Session :=
    { session_id := fresh_id, created_at := now, last_accessed := now,
      client_info := client_info, capabilities := capabilities, context := [] }
  let mgr' := { mgr with sessions := alset mgr.sessions fresh_id session }
  (session, mgr'.cleanup_expired_sessions now)

/-- `SessionManager.get_session`.  Returns the looked-up session (refreshed)
or `none`, together with the updated manager state; the expired record is
deleted, and a hit has its `last_accessed` refreshed (the Python object is
aliased into the store, so the refresh is visible there too). -/
def SessionManager.get_session (mgr : SessionManager) (now : Int)
    (session_id : String) : Option Session × SessionManager :=
  if session_id = "" then (none, mgr)
  else
    match alget mgr.sessions session_id with
    | none => (none, mgr)
    | some session =>
      if session.is_expired now mgr.session_timeout then
        (none, { mgr with sessions := aldel mgr.sessions session_id })
      else
        let session' := session.update_access_time now
        (some session', { mgr with sessions := alset mgr.sessions session_id session' })

/-- `SessionManager.remove_session`: unconditional delete, reporting whether a
record existed. -/
def SessionManager.remove_session (mgr : SessionManager) (session_id : String) :
    Bool × SessionManager :=
  if alhas mgr.sessions session_id then
    (true, { mgr with sessions := aldel mgr.sessions session_id })
  else (false, mgr)

/-- `SessionManager.get_session_count`: `len(self.sessions)`. -/
def SessionManager.get_session_count (mgr : SessionManager) : Nat :=
  mgr.sessions.length

/-! ### `SessionManager.generate_session_id`

The Python code hashes 32 random bytes plus a timestamp with SHA-256, takes
the 64-character lowercase-hex digest, and base64url-encodes the digest's
ASCII bytes, stripping `'='` padding.  `hashlib.sha256(...).hexdigest()` is an
external library call; it is abstracted here as an arbitrary 64-character
lowercase-hex string, and the remaining (pure, in-repo) re-encoding step is
embedded exactly. -/

/-- The base64url alphabet used by `base64.urlsafe_b64encode`. -/
def b64urlAlphabet : List Char :=
  "ABCDEFGHIJKLMNOPQRSTUVWXYZabcdefghijklmnopqrstuvwxyz0123456789-_".toList

/-- Character for one 6-bit group. -/
def sextetChar (n : Nat) : Char :=
  b64urlAlphabet.getD n 'A'

/-- `base64.urlsafe_b64encode` over a byte list (bytes as `Nat < 256`),
including `'='` padding. -/
def b64urlEncode : List Nat → List Char
  | [] => []
  | [b1] =>
      [sextetChar (b1 / 4), sextetChar (b1 % 4 * 16), '=', '=']
  | [b1, b2] =>
      [sextetChar (b1 / 4), sextetChar (b1 % 4 * 16 + b2 / 16),
       sextetChar (b2 % 16 * 4), '=']
  | b1 :: b2 :: b3 :: rest =>
      sextetChar (b1 / 4) :: sextetChar (b1 % 4 * 16 + b2 / 16) ::
      sextetChar (b2 % 16 * 4 + b3 / 64) :: sextetChar (b3 % 64) ::
      b64urlEncode rest

/-- `.rstrip('=')` on a character list. -/
def rstripEq (cs : List Char) : List Char :=
  (cs.reverse.dropWhile (· = '=')).reverse

/-- `SessionManager.generate_session_id`, from the SHA-256 hexdigest on:
encode the digest's characters as their ASCII bytes, base64url-encode, and
strip the `'='` padding. -/
def generate_session_id (hexdigest : String) : String :=
  ⟨rstripEq (b64urlEncode (hexdigest.toList.map Char.toNat))⟩

example : generate_session_id "ff00" = "ZmYwMA" := by decide

/-! ## `http_transport.py` -/

/-- Mutable state of an `HTTPTransport` instance: the owned `SessionManager`,
the per-session SSE message queues, and the process-wide log level (mutated by
`logging/setLevel`). -/
structure HTTPTransport where
  session_manager : SessionManager
  message_queues : List (String × List JValue)
  log_level : String
deriving Repr

/-- `HTTPTransport._send_sse_message`: enqueue onto the session's queue if one
exists, otherwise do nothing (the inner `try` only guards the `put`, which
cannot fail on an unbounded queue). -/
def HTTPTransport.send_sse_message (t : HTTPTransport) (session_id : String)
    (message : JValue) : HTTPTransport :=
  match alget t.message_queues session_id with
  | some q =>
      { t with message_queues := alset t.message_queues session_id (q ++ [message]) }
  | none => t

/-- `HTTPTransport._cleanup_session_queue`: delete the session's queue if it
exists. -/
def HTTPTransport.cleanup_session_queue (t : HTTPTransport) (session_id : String) :
    HTTPTransport :=
  if alhas t.message_queues session_id then
    { t with message_queues := aldel t.message_queues session_id }
  else t

/-- A JSON-RPC error body with no `id` key, as built inline by
`_validate_jsonrpc_request` for most violations. -/
def invalidRequestError (message : String) : JValue :=
  .obj [("jsonrpc", .str "2.0"),
        ("error", .obj [("code", .num (-32600)), ("message", .str message)])]

/-- The params-shape violation body: the only validator branch that attaches
an `id` key (`json_data.get("id")`, hence JSON `null` when absent). -/
def invalidRequestErrorWithId (idv : Option JValue) (message : String) : JValue :=
  .obj [("jsonrpc", .str "2.0"), ("id", idv.getD .null),
        ("error", .obj [("code", .num (-32600)), ("message", .str message)])]

/-- `HTTPTransport._validate_jsonrpc_request`: returns the error body on a
violation, `none` on a conforming envelope. -/
def validate_jsonrpc_request (json_data : JValue) : Option JValue :=
  match json_data with
  | .obj fields =>
    if !(match alget fields "jsonrpc" with | some (.str v) => v = "2.0" | _ => false) then
      some (invalidRequestError "Invalid Request: jsonrpc must be '2.0'")
    else
      match alget fields "method" with
      | some (.str m) =>
        if m = "" then
          some (invalidRequestError "Invalid Request: method is required and must be a string")
        else if !strStartsWith m "notifications/" && !alhas fields "id" then
          some (invalidRequestError "Invalid Request: id is required for non-notification requests")
        else
          match alget fields "params" with
          | none | some .null | some (.obj _) | some (.arr _) => none
          | some _ =>
              some (invalidRequestErrorWithId (alget fields "id")
                "Invalid Request: params must be an object or array")
      | _ => some (invalidRequestError "Invalid Request: method is required and must be a string")
  | _ => some (invalidRequestError "Invalid Request: must be a JSON object")

/-- A JSON-RPC error reply carrying the request id (`json_data.get("id")`,
JSON `null` when absent), as built by the method handlers. -/
def jsonrpcError (request_id : Option JValue) (code : Int) (message : String) : JValue :=
  .obj [("jsonrpc", .str "2.0"), ("id", request_id.getD .null),
        ("error", .obj [("code", .num code), ("message", .str message)])]

/-- The `server_capabilities` dict computed by `_handle_initialize` from the
client-declared capabilities. -/
def server_capabilities_for (client_capabilities : List (String × JValue)) : JValue :=
  let base : List (String × JValue) :=
    [("tools", .obj [("listChanged", .bool false)]),
     ("resources", .obj []),
     ("prompts", .obj []),
     ("logging", .obj [("supportedLevels",
        .arr [.str "debug", .str "info", .str "warning", .str "error", .str "critical"])])]
  let caps :=
    if truthy ((alget client_capabilities "sampling").getD .null) then
      alset base "sampling" (.obj [])
    else base
  let caps :=
    if truthy ((alget client_capabilities "experimental").getD .null) then
      alset caps "experimental" (.obj [("progress", .bool true)])
    else caps
  .obj caps

/-- The success reply of `_handle_initialize`. -/
def initialize_response (request_id : Option JValue) (server_caps : JValue) : JValue :=
  .obj [("jsonrpc", .str "2.0"), ("id", request_id.getD .null),
        ("result", .obj
          [("protocolVersion", .str "2025-03-26"),
           ("capabilities", server_caps),
           ("serverInfo", .obj [("name", .str "AMD SMI MCP Server"),
                                ("version", .str "1.0.0")])])]

/-- `HTTPTransport._handle_initialize`.  An `Except.error` models an escaping
exception (`.get` on a non-dict `params`/`capabilities`, or `dict.update` with
non-dict metadata — exotic pair-sequence arguments that `dict.update` would
also accept are not distinguished); the error payload is the session state at
the moment of the raise, since the merge at line 685 precedes the
`capabilities.get` calls.  On success, returns the reply and the (possibly
merged) bound session. -/
def handle_initialize (params : JValue) (request_id : Option JValue)
    (session : Option Session) : Except (Option Session) (JValue × Option Session) :=
  match params with
  | .obj pfields =>
    let client_info := (alget pfields "clientInfo").getD (.obj [])
    let client_capabilities := (alget pfields "capabilities").getD (.obj [])
    let merged : Except Unit (Option Session) :=
      match session with
      | none => .ok none
      | some s =>
        match client_info with
        | .obj ci => .ok (some
            { s with client_info := dictUpdate s.client_info ci,
                     capabilities := client_capabilities })
        | _ => .error ()
    match merged with
    | .error _ => .error session
    | .ok session' =>
      match client_capabilities with
      | .obj ccf => .ok (initialize_response request_id (server_capabilities_for ccf), session')
      | _ => .error session'
  | _ => .error session

/-- Normalized result of an external tool invocation: either a FastMCP
`ToolResult` (with a `content` list, items already rendered by `str`) or a
plain value rendered by `str`. -/
inductive ToolResult where
  | plain (s : String)
  | withContent (items : List String)
deriving Repr

/-- Lines 821-827 of `_handle_tools_call`: normalize a tool result to text. -/
def contentText : ToolResult → String
  | .plain s => s
  | .withContent items => String.intercalate "\n" items

/-- The external FastMCP tool registry (out of scope per the spec): the
descriptor list rendered by `_handle_tools_list`, the `has_tool` membership
test, and `call_tool` (an `Except.error` carries `str(e)` of the raised
exception). -/
structure ToolRegistry where
  tool_descriptors : List JValue
  has_tool : String → Bool
  call_tool : String → JValue → Except String ToolResult

/-- The "begin" progress frame pushed before a tool runs. -/
def progressBegin (request_id : Option JValue) (tool_name : String) : JValue :=
  .obj [("jsonrpc", .str "2.0"), ("method", .str "notifications/progress"),
        ("params", .obj
          [("progressToken", .str ("tool_" ++ pyStr (request_id.getD .null))),
           ("value", .obj [("kind", .str "begin"),
                           ("title", .str ("Executing " ++ tool_name)),
                           ("message", .str "Starting tool execution...")])])]

/-- The "end" progress frame pushed after a successful tool run. -/
def progressEndOk (request_id : Option JValue) : JValue :=
  .obj [("jsonrpc", .str "2.0"), ("method", .str "notifications/progress"),
        ("params", .obj
          [("progressToken", .str ("tool_" ++ pyStr (request_id.getD .null))),
           ("value", .obj [("kind", .str "end"),
                           ("message", .str "Tool execution completed")])])]

/-- The "end" progress frame pushed after a failed tool run; `message` is
`"Tool execution failed: " ++ str(e)`. -/
def progressEndFail (request_id : Option JValue) (message : String) : JValue :=
  .obj [("jsonrpc", .str "2.0"), ("method", .str "notifications/progress"),
        ("params", .obj
          [("progressToken", .str ("tool_" ++ pyStr (request_id.getD .null))),
           ("value", .obj [("kind", .str "end"),
                           ("message", .str message)])])]

/-- The success reply of `_handle_tools_call`. -/
def toolsCallResult (request_id : Option JValue) (text : String) : JValue :=
  .obj [("jsonrpc", .str "2.0"), ("id", request_id.getD .null),
        ("result", .obj [("content",
          .arr [.obj [("type", .str "text"), ("text", .str text)]])])]

/-- `HTTPTransport._handle_tools_call`.  An `Except.error` models an escaping
exception (only `params.get` on a non-dict, which precedes the guarded
`try`); tool-invocation failures are caught inside and become structured
replies.  Returns the reply and the transport state with any progress frames
enqueued. -/
def handle_tools_call (reg : ToolRegistry) (params : JValue)
    (request_id : Option JValue) (session : Option Session) (t : HTTPTransport) :
    Except Unit (JValue × HTTPTransport) :=
  match params with
  | .obj pfields =>
    let tool_nameV := (alget pfields "name").getD .null
    let tool_args := (alget pfields "arguments").getD (.obj [])
    if !truthy tool_nameV then
      .ok (jsonrpcError request_id (-32602) "Tool name is required", t)
    else
      match tool_nameV with
      | .str tool_name =>
        if !reg.has_tool tool_name then
          .ok (jsonrpcError request_id (-32601) ("Tool '" ++ tool_name ++ "' not found"), t)
        else
          let t1 := match session with
            | some s => t.send_sse_message s.session_id (progressBegin request_id tool_name)
            | none => t
          match reg.call_tool tool_name tool_args with
          | .ok result =>
            let t2 := match session with
              | some s => t1.send_sse_message s.session_id (progressEndOk request_id)
              | none => t1
            .ok (toolsCallResult request_id (contentText result), t2)
          | .error e =>
            let t2 := match session with
              | some s => t1.send_sse_message s.session_id
                  (progressEndFail request_id ("Tool execution failed: " ++ e))
              | none => t1
            .ok (jsonrpcError request_id (-32603) ("Tool execution failed: " ++ e), t2)
      | other =>
        -- a truthy non-string name: `has_tool` (a dict membership test) is false
        .ok (jsonrpcError request_id (-32601) ("Tool '" ++ pyStr other ++ "' not found"), t)
  | _ => .error ()

/-- `HTTPTransport._handle_tools_list`: renders the external registry's
descriptors; the registry access is treated as total. -/
def handle_tools_list (reg : ToolRegistry) (request_id : Option JValue) : JValue :=
  .obj [("jsonrpc", .str "2.0"), ("id", request_id.getD .null),
        ("result", .obj [("tools", .arr reg.tool_descriptors)])]

/-- `HTTPTransport._handle_resources_list`. -/
def handle_resources_list (request_id : Option JValue) : JValue :=
  .obj [("jsonrpc", .str "2.0"), ("id", request_id.getD .null),
        ("result", .obj [("resources", .arr [])])]

/-- `HTTPTransport._handle_resources_read`. -/
def handle_resources_read (request_id : Option JValue) : JValue :=
  jsonrpcError request_id (-32601) "Resources not implemented"

/-- `HTTPTransport._handle_prompts_list`. -/
def handle_prompts_list (request_id : Option JValue) : JValue :=
  .obj [("jsonrpc", .str "2.0"), ("id", request_id.getD .null),
        ("result", .obj [("prompts", .arr [])])]

/-- `HTTPTransport._handle_prompts_get`. -/
def handle_prompts_get (request_id : Option JValue) : JValue :=
  jsonrpcError request_id (-32601) "Prompts not implemented"

/-- `HTTPTransport._handle_logging_set_level`.  An `Except.error` models the
escaping `params.get` exception on a non-dict `params`. -/
def handle_logging_set_level (params : JValue) (request_id : Option JValue)
    (t : HTTPTransport) : Except Unit (JValue × HTTPTransport) :=
  match params with
  | .obj pfields =>
    let levelV := (alget pfields "level").getD .null
    match levelV with
    | .str level =>
      if level = "debug" || level = "info" || level = "warning" ||
         level = "error" || level = "critical" then
        .ok (.obj [("jsonrpc", .str "2.0"), ("id", request_id.getD .null),
                   ("result", .obj [])],
             { t with log_level := level })
      else .ok (jsonrpcError request_id (-32602) ("Invalid logging level: " ++ level), t)
    | _ => .ok (jsonrpcError request_id (-32602) ("Invalid logging level: " ++ pyStr levelV), t)
  | _ => .error ()

/-- `HTTPTransport._process_mcp_request`: the routing table over the method
name.  Returns the optional reply (`none` is the no-response sentinel for
notifications), the transport state, and the in-flight session object (whose
mutation by `_handle_initialize` is synced into the store, since the Python
object is aliased there).  `Except.error` models an exception escaping to the
caller's `except` clause. -/
def process_mcp_request (reg : ToolRegistry) (json_data : JValue)
    (session : Option Session) (t : HTTPTransport) :
    Except Unit (Option JValue) × HTTPTransport × Option Session :=
  let params := (jget json_data "params").getD (.obj [])
  let request_id := jget json_data "id"
  match jget json_data "method" with
  | some (.str method) =>
    if method = "initialize" then
      let sync := fun (t : HTTPTransport) (session' : Option Session) =>
        match session' with
        | some s' => { t with session_manager := { t.session_manager with
            sessions := alset t.session_manager.sessions s'.session_id s' } }
        | none => t
      match handle_initialize params request_id session with
      | .ok (resp, session') => (.ok (some resp), sync t session', session')
      | .error session' => (.error (), sync t session', session')
    else if method = "notifications/initialized" then (.ok none, t, session)
    else if method = "tools/list" then
      (.ok (some (handle_tools_list reg request_id)), t, session)
    else if method = "tools/call" then
      match handle_tools_call reg params request_id session t with
      | .ok (resp, t') => (.ok (some resp), t', session)
      | .error _ => (.error (), t, session)
    else if method = "resources/list" then
      (.ok (some (handle_resources_list request_id)), t, session)
    else if method = "resources/read" then
      (.ok (some (handle_resources_read request_id)), t, session)
    else if method = "prompts/list" then
      (.ok (some (handle_prompts_list request_id)), t, session)
    else if method = "prompts/get" then
      (.ok (some (handle_prompts_get request_id)), t, session)
    else if method = "logging/setLevel" then
      match handle_logging_set_level params request_id t with
      | .ok (resp, t') => (.ok (some resp), t', session)
      | .error _ => (.error (), t, session)
    else if strStartsWith method "notifications/" then (.ok none, t, session)
    else
      (.ok (some (jsonrpcError request_id (-32601) ("Method not found: " ++ method))), t, session)
  | _ =>
    -- a missing or non-string method falls through every `==` test and makes
    -- `method.startswith` raise (unreachable behind the validator)
    (.error (), t, session)

/-- Outcome of reading and JSON-parsing the request body. -/
inductive RawBody where
  | empty
  | malformed (detail : String)
  | parsed (j : JValue)
deriving Repr

/-- An HTTP response: status, optional JSON body, and the optional
`Mcp-Session-Id` response header. -/
structure HttpResponse where
  status : Nat
  body : Option JValue
  session_header : Option String := none
deriving Repr

/-- The `-32700` parse-failure body of `_handle_mcp_request`. -/
def parseErrorBody (message : String) : JValue :=
  .obj [("jsonrpc", .str "2.0"),
        ("error", .obj [("code", .num (-32700)), ("message", .str message)])]

/-- The `-32603` internal-error body of `_handle_mcp_request`'s outermost
`except` clause. -/
def internalErrorBody : JValue :=
  .obj [("jsonrpc", .str "2.0"),
        ("error", .obj [("code", .num (-32603)), ("message", .str "Internal server error")])]

/-- `HTTPTransport._handle_mcp_request` (the POST /mcp route handler): parse,
validate, dispatch, and translate the no-response sentinel into a body-less
204.  Also returns the in-flight session object for the middleware's final
`update_access_time`. -/
def handle_mcp_request (reg : ToolRegistry) (raw : RawBody)
    (session : Option Session) (t : HTTPTransport) :
    HttpResponse × HTTPTransport × Option Session :=
  match raw with
  | .empty =>
      ({ status := 400, body := some (parseErrorBody "Parse error: Empty request body") }, t, session)
  | .malformed detail =>
      ({ status := 400, body := some (parseErrorBody ("Parse error: " ++ detail)) }, t, session)
  | .parsed json_data =>
    match validate_jsonrpc_request json_data with
    | some err => ({ status := 400, body := some err }, t, session)
    | none =>
      match process_mcp_request reg json_data session t with
      | (.ok none, t', session') => ({ status := 204, body := none }, t', session')
      | (.ok (some r), t', session') => ({ status := 200, body := some r }, t', session')
      | (.error _, t', session') => ({ status := 500, body := some internalErrorBody }, t', session')

/-! ### `MCPSessionMiddleware` -/

/-- An inbound HTTP request as the middleware sees it. -/
structure HttpRequest where
  verb : String
  path : String
  headers : List (String × String)
  client_host : Option String
  body : RawBody
deriving Repr

/-- Python's `sub in s` substring test. -/
def containsSubstr (s sub : String) : Bool :=
  (s.splitOn sub).length > 1

/-- `MCPSessionMiddleware._is_legacy_sse_request`. -/
def is_legacy_sse_request (req : HttpRequest) : Bool :=
  req.verb = "GET" && req.path = "/sse" &&
  containsSubstr ((alget req.headers "Accept").getD "") "text/event-stream" &&
  !alhas req.headers "Mcp-Session-Id"

/-- `MCPSessionMiddleware._is_initialization_request`: never for GET; for any
other verb, exactly when the `Mcp-Session-Id` header is absent.  The request
body's JSON-RPC method is never consulted (the code comments that reading the
body could interfere with downstream processing). -/
def is_initialization_request (req : HttpRequest) : Bool :=
  if req.verb = "GET" then false
  else if !alhas req.headers "Mcp-Session-Id" then true
  else false

/-- `MCPSessionMiddleware._extract_client_info_sync`: header-derived metadata
only (empty header values are falsy and skipped, matching `if user_agent:`). -/
def extract_client_info_sync (req : HttpRequest) : List (String × JValue) :=
  (match alget req.headers "User-Agent" with
   | some ua => if ua ≠ "" then [("user_agent", JValue.str ua)] else []
   | none => []) ++
  (match req.client_host with
   | some h => [("client_ip", JValue.str h)]
   | none => []) ++
  (match alget req.headers "Origin" with
   | some o => if o ≠ "" then [("origin", JValue.str o)] else []
   | none => [])

/-- How `MCPSessionMiddleware.dispatch` classifies an inbound request, in the
source's branch order. -/
inductive MiddlewareOutcome where
  /-- `/health` or `/metrics`: session logic skipped entirely. -/
  | passthrough
  /-- 405 for an unsupported verb on `/mcp`. -/
  | methodNotAllowed405
  /-- legacy `GET /sse` stream: a temporary session is created and the
  handler runs. -/
  | legacySseSession
  /-- treated as initialization: the handler runs with no bound session and a
  fresh session is created afterwards if the response status is 200. -/
  | initializationCreating
  /-- `GET /mcp` with `Accept: text/event-stream` and no session: a temporary
  session is created and the handler runs. -/
  | mcpGetSseSession
  /-- `GET /mcp` without the SSE accept header and no session: 405. -/
  | mcpGet405
  /-- non-GET paths never reach this; GET without session elsewhere: 400
  "Missing Mcp-Session-Id header". -/
  | missingSession400
  /-- a supplied session id that does not resolve to a live session: 400
  "Invalid or expired session ID". -/
  | invalidSession400
  /-- the handler runs with the live session bound. -/
  | bound (session_id : String)
deriving Repr, DecidableEq

/-- The classification performed by `MCPSessionMiddleware.dispatch`, branch
for branch.  `mgr`/`now` feed the `get_session` validation of a supplied
session id. -/
def middleware_classify (mgr : SessionManager) (now : Int) (req : HttpRequest) :
    MiddlewareOutcome :=
  if req.path = "/health" || req.path = "/metrics" then .passthrough
  else if req.path = "/mcp" &&
          !(req.verb = "GET" || req.verb = "POST" || req.verb = "DELETE") then
    .methodNotAllowed405
  else if is_legacy_sse_request req then .legacySseSession
  else if is_initialization_request req then .initializationCreating
  else
    -- `session_id = request.headers.get("Mcp-Session-Id")`; `if not session_id`
    let session_id := (alget req.headers "Mcp-Session-Id").getD ""
    if session_id = "" then
      if req.verb = "GET" && req.path = "/mcp" then
        if containsSubstr ((alget req.headers "Accept").getD "") "text/event-stream" then
          .mcpGetSseSession
        else .mcpGet405
      else .missingSession400
    else
      match (mgr.get_session now session_id).1 with
      | none => .invalidSession400
      | some _ => .bound session_id

/-- The 400 body for a missing `Mcp-Session-Id` header. -/
def missingSessionBody : JValue :=
  .obj [("jsonrpc", .str "2.0"),
        ("error", .obj [("code", .num (-32600)), ("message", .str "Missing Mcp-Session-Id header")])]

/-- The 400 body for an unknown or expired session id. -/
def invalidSessionBody : JValue :=
  .obj [("jsonrpc", .str "2.0"),
        ("error", .obj [("code", .num (-32600)), ("message", .str "Invalid or expired session ID")])]

/-- The composed `POST /mcp` flow: `MCPSessionMiddleware.dispatch` (for a
POST to `/mcp`, so the health, 405 and legacy-SSE branches cannot fire)
around `_handle_mcp_request`.  `fresh_id` stands for the id that
`generate_session_id` produces if a session gets created; `now` for
`time.time()` during this request. -/
def post_mcp (reg : ToolRegistry) (t : HTTPTransport) (now : Int)
    (fresh_id : String) (req : HttpRequest) : HttpResponse × HTTPTransport :=
  if is_initialization_request req then
    let (resp, t', _) := handle_mcp_request reg req.body none t
    if resp.status = 200 then
      let client_info := extract_client_info_sync req
      let (session, mgr') :=
        t'.session_manager.create_session now fresh_id client_info (.obj [])
      ({ resp with session_header := some session.session_id },
       { t' with session_manager := mgr' })
    else (resp, t')
  else
    let session_id := (alget req.headers "Mcp-Session-Id").getD ""
    if session_id = "" then
      ({ status := 400, body := some missingSessionBody }, t)
    else
      match t.session_manager.get_session now session_id with
      | (none, mgr') =>
          ({ status := 400, body := some invalidSessionBody },
           { t with session_manager := mgr' })
      | (some session, mgr') =>
        let t1 := { t with session_manager := mgr' }
        let (resp, t2, sessionOut) := handle_mcp_request reg req.body (some session) t1
        -- `session.update_access_time()` mutates the store-aliased object
        let sFinal := (sessionOut.getD session).update_access_time now
        (resp, { t2 with session_manager := { t2.session_manager with
                   sessions := alset t2.session_manager.sessions sFinal.session_id sFinal } })

/-! ## Concrete fixtures for witnesses and counterexamples -/

/-- An empty session store with the default timeouts. -/
def mgrEmpty : SessionManager :=
  { session_timeout := 3600, cleanup_interval := 300, sessions := [], last_cleanup := 0 }

/-- An empty transport state. -/
def tEmpty : HTTPTransport :=
  { session_manager := mgrEmpty, message_queues := [], log_level := "info" }

/-- A registry with no tools. -/
def regEmpty : ToolRegistry :=
  { tool_descriptors := [], has_tool := fun _ => false,
    call_tool := fun _ _ => .error "no tools" }

/-- A registry with a single tool `"t"` whose invocation always raises
`RuntimeError("boom")`. -/
def regBoom : ToolRegistry :=
  { tool_descriptors := [], has_tool := fun n => n = "t",
    call_tool := fun _ _ => .error "boom" }

/-- A session fixture. -/
def sessionA : Session :=
  { session_id := "sid-a", created_at := 0, last_accessed := 0,
    client_info := [], capabilities := .obj [], context := [] }

/-- A store holding `sessionA` with a 10-unit timeout. -/
def mgrA : SessionManager :=
  { session_timeout := 10, cleanup_interval := 300,
    sessions := [("sid-a", sessionA)], last_cleanup := 0 }

/-- A transport state holding `sessionA` and an (empty) SSE queue for it. -/
def tQ : HTTPTransport :=
  { session_manager := mgrA, message_queues := [("sid-a", [])], log_level := "info" }

/-- The JSON-RPC method named in a request's parsed body, which
`MCPSessionMiddleware` never reads. -/
def bodyMethodOf (req : HttpRequest) : Option JValue :=
  match req.body with
  | .parsed j => jget j "method"
  | _ => none

/-- A POST /mcp request with no session header whose body method is
`tools/call`, not an initialization method. -/
def reqToolsNoSession : HttpRequest :=
  { verb := "POST", path := "/mcp",
    headers := [("Accept", "application/json")], client_host := some "127.0.0.1",
    body := .parsed (.obj [("jsonrpc", .str "2.0"), ("id", .num 1),
                           ("method", .str "tools/call"),
                           ("params", .obj [("name", .str "x")])]) }


/-- The session record after `_handle_initialize` merged params-supplied
client metadata `ci` and capabilities `.obj cc` into a bound session `s`,
with the access time refreshed to `now`. -/
def mergedInit (s : Session) (now : Int) (ci cc : List (String × JValue)) : Session :=
  { s with last_accessed := now,
           client_info := dictUpdate s.client_info ci,
           capabilities := .obj cc }

/-- A first-contact `initialize` POST: no session header, params-supplied
clientInfo `{"name": "X"}`. -/
def reqInitFirst : HttpRequest :=
  { verb := "POST", path := "/mcp",
    headers := [("User-Agent", "UA")], client_host := some "127.0.0.1",
    body := .parsed (.obj [("jsonrpc", .str "2.0"), ("id", .num 1),
                           ("method", .str "initialize"),
                           ("params", .obj [("clientInfo", .obj [("name", .str "X")])])]) }

/-- A re-`initialize` POST bound to the stored session `sid-a`. -/
def reqInitBound : HttpRequest :=
  { verb := "POST", path := "/mcp",
    headers := [("Mcp-Session-Id", "sid-a")], client_host := none,
    body := .parsed (.obj [("jsonrpc", .str "2.0"), ("id", .num 1),
                           ("method", .str "initialize"),
                           ("params", .obj [("clientInfo", .obj [("name", .str "X")])])]) }

/-- Spec-side (§4.3): the envelope grammar — a structured object, the literal
protocol version `"2.0"`, a non-empty string `method`, an `id` unless the
method has the notification prefix, and `params` (when present and non-null)
an object or array. -/
def conformsEnvelope (j : JValue) : Bool :=
  match j with
  | .obj fields =>
    (match alget fields "jsonrpc" with | some (.str v) => v = "2.0" | _ => false) &&
    (match alget fields "method" with
     | some (.str m) => m ≠ "" && (strStartsWith m "notifications/" || alhas fields "id")
     | _ => false) &&
    (match alget fields "params" with
     | none | some .null | some (.obj _) | some (.arr _) => true
     | some _ => false)
  | _ => false

/-- Spec-side: the envelope violates only the params-shape rule (the single
validator branch that echoes the request id). -/
def isParamsViolation (j : JValue) : Bool :=
  match j with
  | .obj fields =>
    (match alget fields "jsonrpc" with | some (.str v) => v = "2.0" | _ => false) &&
    (match alget fields "method" with
     | some (.str m) => m ≠ "" && (strStartsWith m "notifications/" || alhas fields "id")
     | _ => false) &&
    (match alget fields "params" with
     | none | some .null | some (.obj _) | some (.arr _) => false
     | some _ => true)
  | _ => false

/-- Spec-side: a structured error object carrying the fixed invalid-request
code `-32600` and a human-readable (string) message. -/
def isInvalidRequestErrorBody (e : JValue) : Bool :=
  match jget e "error" with
  | some err =>
    (match jget err "code" with | some (.num c) => c = -32600 | _ => false) &&
    (match jget err "message" with | some (.str _) => true | _ => false)
  | none => false

/-- An envelope with a bad protocol version and an id present (C6). -/
def envBadVersion : JValue :=
  .obj [("jsonrpc", .str "1.0"), ("id", .num 1), ("method", .str "x")]

/-- Spec-side (§4.2): a URL-safe printable character — letter, digit, `-` or
`_`. -/
def urlSafeChar (c : Char) : Bool :=
  c.isAlpha || c.isDigit || c = '-' || c = '_'

/-- A lowercase-hex character, as produced by `hashlib`'s `hexdigest`. -/
def lowercaseHexChar (c : Char) : Bool :=
  "0123456789abcdef".toList.contains c

/-- A concrete 64-character lowercase-hex digest. -/
def hexW : String :=
  "0123456789abcdef0123456789abcdef0123456789abcdef0123456789abcdef"

/-! ## Association-list lemmas -/

theorem alget_alset_self {α : Type} (m : List (String × α)) (k : String) (v : α) :
    alget (alset m k v) k = some v := by
  induction m with
  | nil => simp [alset, alget]
  | cons kv rest ih =>
    by_cases h : kv.1 = k
    · simp [alset, alget, h]
    · simp [alset, alget, h, ih]

theorem alhas_alset_self {α : Type} (m : List (String × α)) (k : String) (v : α) :
    alhas (alset m k v) k = true := by
  simp [alhas, alget_alset_self]

theorem alset_length_of_has {α : Type} (m : List (String × α)) (k : String) (v : α)
    (h : alhas m k = true) : (alset m k v).length = m.length := by
  induction m with
  | nil => simp [alhas, alget] at h
  | cons kv rest ih =>
    by_cases hk : kv.1 = k
    · simp [alset, hk]
    · simp [alhas, alget, hk] at h
      simp [alset, hk, ih h]

theorem alhas_of_alget {α : Type} {m : List (String × α)} {k : String} {v : α}
    (h : alget m k = some v) : alhas m k = true := by
  simp [alhas, h]

/-- Enqueueing onto an existing channel appends to its queue. -/
theorem send_sse_message_get (t : HTTPTransport) (sid : String) (msg : JValue)
    (q : List JValue) (h : alget t.message_queues sid = some q) :
    alget (t.send_sse_message sid msg).message_queues sid = some (q ++ [msg]) := by
  simp [HTTPTransport.send_sse_message, h, alget_alset_self]

/-! ## Claims -/

/-- C9: for every session id with no attached event channel, pushing a
message is a silent no-op: `_send_sse_message` returns without error, creates
no channel, and leaves the channel map (and all other transport state)
unchanged. -/
theorem sse_push_no_channel_noop (t : HTTPTransport) (session_id : String)
    (message : JValue) (h : alget t.message_queues session_id = none) :
    t.send_sse_message session_id message = t := by
  simp [HTTPTransport.send_sse_message, h]

theorem sse_push_no_channel_noop_witness :
    alget tEmpty.message_queues "nochan" = none ∧
    tEmpty.send_sse_message "nochan" (.str "m") = tEmpty :=
  ⟨rfl, sse_push_no_channel_noop tEmpty "nochan" (.str "m") rfl⟩

/-- C10: a `tools/call` whose params carry no tool name (absent or the empty
string) is answered with the invalid-params error `-32602` / "Tool name is
required", with the transport state unchanged and independently of the tool
registry (which is therefore not consulted). -/
theorem tools_call_no_name_invalid_params (pfields : List (String × JValue))
    (request_id : Option JValue) (session : Option Session) (t : HTTPTransport)
    (h : alget pfields "name" = none ∨ alget pfields "name" = some (.str "")) :
    ∀ reg : ToolRegistry,
      handle_tools_call reg (.obj pfields) request_id session t =
        .ok (jsonrpcError request_id (-32602) "Tool name is required", t) := by
  intro reg
  rcases h with h | h <;> simp [handle_tools_call, h, truthy]

theorem tools_call_no_name_invalid_params_witness :
    (alget [("arguments", JValue.obj [])] "name" = none ∨
     alget [("arguments", JValue.obj [])] "name" = some (.str "")) ∧
    handle_tools_call regBoom (.obj [("arguments", .obj [])]) (some (.num 2)) none tEmpty =
      .ok (jsonrpcError (some (.num 2)) (-32602) "Tool name is required", tEmpty) :=
  ⟨Or.inl rfl,
   tools_call_no_name_invalid_params [("arguments", JValue.obj [])]
     (some (.num 2)) none tEmpty (Or.inl rfl) regBoom⟩

/-- C4: a `tools/call` with a bound session whose tool handler raises is
converted into the structured `-32603` error reply (an `Except.ok`, never a
propagated fault), and both the begin progress frame and an end progress
frame whose message reflects the failure are pushed to that session's event
channel. -/
theorem tools_call_failure_caught (reg : ToolRegistry)
    (pfields : List (String × JValue)) (request_id : Option JValue)
    (s : Session) (t : HTTPTransport) (name e : String) (q : List JValue)
    (hname : alget pfields "name" = some (.str name)) (hne : name ≠ "")
    (hhas : reg.has_tool name = true)
    (hcall : reg.call_tool name ((alget pfields "arguments").getD (.obj [])) = .error e)
    (hq : alget t.message_queues s.session_id = some q) :
    handle_tools_call reg (.obj pfields) request_id (some s) t =
      .ok (jsonrpcError request_id (-32603) ("Tool execution failed: " ++ e),
           (t.send_sse_message s.session_id (progressBegin request_id name)).send_sse_message
             s.session_id (progressEndFail request_id ("Tool execution failed: " ++ e))) ∧
    alget ((t.send_sse_message s.session_id (progressBegin request_id name)).send_sse_message
             s.session_id
             (progressEndFail request_id ("Tool execution failed: " ++ e))).message_queues
          s.session_id =
      some (q ++ [progressBegin request_id name,
                  progressEndFail request_id ("Tool execution failed: " ++ e)]) := by
  constructor
  · simp [handle_tools_call, hname, hhas, hcall, truthy, hne]
  · have h1 := send_sse_message_get t s.session_id (progressBegin request_id name) q hq
    have h2 := send_sse_message_get _ s.session_id
      (progressEndFail request_id ("Tool execution failed: " ++ e)) _ h1
    simpa using h2

theorem tools_call_failure_caught_witness :
    (alget [("name", JValue.str "t")] "name" = some (.str "t") ∧
     regBoom.has_tool "t" = true ∧
     regBoom.call_tool "t" ((alget [("name", JValue.str "t")] "arguments").getD (.obj [])) =
       .error "boom" ∧
     alget tQ.message_queues sessionA.session_id = some []) ∧
    handle_tools_call regBoom (.obj [("name", .str "t")]) (some (.num 2)) (some sessionA) tQ =
      .ok (jsonrpcError (some (.num 2)) (-32603) "Tool execution failed: boom",
           (tQ.send_sse_message sessionA.session_id (progressBegin (some (.num 2)) "t")).send_sse_message
             sessionA.session_id
             (progressEndFail (some (.num 2)) "Tool execution failed: boom")) ∧
    alget ((tQ.send_sse_message sessionA.session_id
             (progressBegin (some (.num 2)) "t")).send_sse_message sessionA.session_id
             (progressEndFail (some (.num 2)) "Tool execution failed: boom")).message_queues
          sessionA.session_id =
      some [progressBegin (some (.num 2)) "t",
            progressEndFail (some (.num 2)) "Tool execution failed: boom"] := by
  have h := tools_call_failure_caught regBoom [("name", JValue.str "t")] (some (.num 2))
    sessionA tQ "t" "boom" [] rfl (by decide) rfl rfl rfl
  exact ⟨⟨rfl, rfl, rfl, rfl⟩, h.1, h.2⟩

/-- C8: an accepted notification (method beginning with `"notifications/"`)
makes the dispatcher return the no-response sentinel, which the transport
translates into a 204 with an empty body — never into an error. -/
theorem notification_no_content (reg : ToolRegistry) (json_data : JValue) (m : String)
    (session : Option Session) (t : HTTPTransport)
    (hm : jget json_data "method" = some (.str m))
    (hpfx : strStartsWith m "notifications/" = true)
    (hvalid : validate_jsonrpc_request json_data = none) :
    process_mcp_request reg json_data session t = (.ok none, t, session) ∧
    handle_mcp_request reg (.parsed json_data) session t =
      ({ status := 204, body := none }, t, session) := by
  have hni : m ≠ "initialize" := by rintro rfl; exact absurd hpfx (by decide)
  have hproc : process_mcp_request reg json_data session t = (.ok none, t, session) := by
    by_cases h2 : m = "notifications/initialized"
    · subst h2; simp [process_mcp_request, hm]
    · have h3 : m ≠ "tools/list" := by rintro rfl; exact absurd hpfx (by decide)
      have h4 : m ≠ "tools/call" := by rintro rfl; exact absurd hpfx (by decide)
      have h5 : m ≠ "resources/list" := by rintro rfl; exact absurd hpfx (by decide)
      have h6 : m ≠ "resources/read" := by rintro rfl; exact absurd hpfx (by decide)
      have h7 : m ≠ "prompts/list" := by rintro rfl; exact absurd hpfx (by decide)
      have h8 : m ≠ "prompts/get" := by rintro rfl; exact absurd hpfx (by decide)
      have h9 : m ≠ "logging/setLevel" := by rintro rfl; exact absurd hpfx (by decide)
      simp [process_mcp_request, hm, hni, h2, h3, h4, h5, h6, h7, h8, h9, hpfx]
  exact ⟨hproc, by simp [handle_mcp_request, hvalid, hproc]⟩

theorem notification_no_content_witness :
    (jget (.obj [("jsonrpc", .str "2.0"), ("method", .str "notifications/initialized")])
       "method" = some (.str "notifications/initialized") ∧
     strStartsWith "notifications/initialized" "notifications/" = true ∧
     validate_jsonrpc_request
       (.obj [("jsonrpc", .str "2.0"), ("method", .str "notifications/initialized")]) = none) ∧
    handle_mcp_request regEmpty
      (.parsed (.obj [("jsonrpc", .str "2.0"), ("method", .str "notifications/initialized")]))
      none tEmpty = ({ status := 204, body := none }, tEmpty, none) :=
  ⟨⟨rfl, by decide, rfl⟩,
   (notification_no_content regEmpty
     (.obj [("jsonrpc", .str "2.0"), ("method", .str "notifications/initialized")])
     "notifications/initialized" none tEmpty rfl (by decide) rfl).2⟩

/-- C3 counterexample: the claim says `get` returns absent (and deletes)
exactly when `now - lastAccessed >= timeout`; but at `now - lastAccessed =
timeout` (here `10 - 0 = 10`, the store's timeout) `get_session` returns the
refreshed record, because `Session.is_expired` uses a strict `>`. -/
theorem get_session_boundary_counterexample :
    (10 : Int) - sessionA.last_accessed ≥ mgrA.session_timeout ∧
    (mgrA.get_session 10 "sid-a").1 = some (sessionA.update_access_time 10) := by
  exact ⟨by decide, rfl⟩

/-- C3 amended: for a stored session, `get_session` deletes the record and
returns absent exactly when `now - lastAccessed` is STRICTLY greater than the
timeout; otherwise (including at the boundary) it returns the record with
`lastAccessedAt` refreshed to `now`. -/
theorem get_session_strict_expiry (mgr : SessionManager) (now : Int) (sid : String)
    (s : Session) (hsid : sid ≠ "") (hfound : alget mgr.sessions sid = some s) :
    (now - s.last_accessed > mgr.session_timeout →
      mgr.get_session now sid = (none, { mgr with sessions := aldel mgr.sessions sid })) ∧
    (¬ now - s.last_accessed > mgr.session_timeout →
      mgr.get_session now sid =
        (some (s.update_access_time now),
         { mgr with sessions := alset mgr.sessions sid (s.update_access_time now) })) := by
  constructor <;> intro h <;>
    simp [SessionManager.get_session, hsid, hfound, Session.is_expired, h]

theorem get_session_strict_expiry_witness :
    ("sid-a" ≠ "" ∧ alget mgrA.sessions "sid-a" = some sessionA ∧
     (11 : Int) - sessionA.last_accessed > mgrA.session_timeout) ∧
    mgrA.get_session 11 "sid-a" =
      (none, { mgrA with sessions := aldel mgrA.sessions "sid-a" }) :=
  ⟨⟨by decide, rfl, by decide⟩,
   (get_session_strict_expiry mgrA 11 "sid-a" sessionA (by decide) rfl).1 (by decide)⟩

/-- C1 counterexample: the claim says a session-less non-streaming request
whose method is not an initialization method is rejected as malformed; but
the middleware classifies this session-less `tools/call` POST as
session-creating (`_is_initialization_request` never reads the body), so the
handler runs and a session is created on success. -/
theorem middleware_ignores_body_method_counterexample :
    bodyMethodOf reqToolsNoSession = some (.str "tools/call") ∧
    middleware_classify mgrEmpty 0 reqToolsNoSession = .initializationCreating :=
  ⟨rfl, rfl⟩

/-- C1 amended: a request with no session identity and a non-GET verb (on any
path other than the health/metrics probes, and with the verb allowed when the
path is `/mcp`) is ALWAYS treated as session-creating, whatever JSON-RPC
method its body carries — the middleware never inspects the body, so no
method-based rejection of session-less requests exists; only session-less GET
requests are rejected (or, for streaming subscribes, given a temporary
session). -/
theorem no_session_non_get_always_creating (mgr : SessionManager) (now : Int)
    (req : HttpRequest)
    (hnos : alhas req.headers "Mcp-Session-Id" = false)
    (hverb : req.verb ≠ "GET")
    (hpath : req.path ≠ "/health" ∧ req.path ≠ "/metrics")
    (hallowed : req.path = "/mcp" → req.verb = "POST" ∨ req.verb = "DELETE") :
    middleware_classify mgr now req = .initializationCreating := by
  have hlegacy : is_legacy_sse_request req = false := by
    simp [is_legacy_sse_request, hverb]
  have hinit : is_initialization_request req = true := by
    simp [is_initialization_request, hverb, hnos]
  by_cases hmcp : req.path = "/mcp"
  · rcases hallowed hmcp with h | h <;>
      simp [middleware_classify, hpath.1, hpath.2, hmcp, h, hlegacy, hinit]
  · simp [middleware_classify, hpath.1, hpath.2, hmcp, hlegacy, hinit]

theorem no_session_non_get_always_creating_witness :
    (alhas reqToolsNoSession.headers "Mcp-Session-Id" = false ∧
     reqToolsNoSession.verb ≠ "GET" ∧
     reqToolsNoSession.path ≠ "/health" ∧ reqToolsNoSession.path ≠ "/metrics" ∧
     reqToolsNoSession.verb = "POST") ∧
    middleware_classify mgrEmpty 0 reqToolsNoSession = .initializationCreating :=
  ⟨⟨rfl, by decide, by decide, by decide, rfl⟩,
   no_session_non_get_always_creating mgrEmpty 0 reqToolsNoSession rfl (by decide)
     ⟨by decide, by decide⟩ (fun _ => Or.inl rfl)⟩

/-- Computation of the whole `POST /mcp` flow for an `initialize` request
bound to a live session: the reply is 200 with the negotiation result, and
the store ends up holding the merged record (the three `alset`s are the
`get_session` refresh, the handler's store-aliased mutation, and the
middleware's final `update_access_time`). -/
theorem post_mcp_bound_initialize_eq
    (reg : ToolRegistry) (t : HTTPTransport) (now : Int) (fresh_id sid : String)
    (s : Session) (req : HttpRequest)
    (bfields pfields ci cc : List (String × JValue))
    (hhdr : alget req.headers "Mcp-Session-Id" = some sid) (hsid : sid ≠ "")
    (hbody : req.body = .parsed (.obj bfields))
    (hget : alget t.session_manager.sessions sid = some s)
    (hsidEq : s.session_id = sid)
    (hlive : ¬ now - s.last_accessed > t.session_manager.session_timeout)
    (hmethod : alget bfields "method" = some (.str "initialize"))
    (hvalid : validate_jsonrpc_request (.obj bfields) = none)
    (hparams : alget bfields "params" = some (.obj pfields))
    (hci : alget pfields "clientInfo" = some (.obj ci))
    (hcc : (alget pfields "capabilities").getD (.obj []) = .obj cc) :
    post_mcp reg t now fresh_id req =
      ({ status := 200,
         body := some (initialize_response (alget bfields "id") (server_capabilities_for cc)),
         session_header := none },
       { t with session_manager := { t.session_manager with sessions := alset (alset (alset t.session_manager.sessions sid (s.update_access_time now)) sid (mergedInit s now ci cc)) sid (mergedInit s now ci cc) } }) := by
  have hinit : is_initialization_request req = false := by
    simp [is_initialization_request, alhas, hhdr]
  simp [post_mcp, hinit, hhdr, hsid, SessionManager.get_session, hget,
        Session.is_expired, hlive, handle_mcp_request, hbody, hvalid,
        process_mcp_request, jget, hmethod, hparams, handle_initialize, hci, hcc,
        Session.update_access_time, mergedInit, hsidEq]

/-- C2 counterexample: a first-contact `initialize` carrying params clientInfo
`{"name": "X"}` succeeds (200, fresh session id advertised), but the created
session's clientInfo is only the header-derived metadata — the params-supplied
`name` is NOT in it, because the middleware creates the session after the
handler ran with no bound session. -/
theorem initialize_first_contact_counterexample :
    (post_mcp regEmpty tEmpty 0 "fresh" reqInitFirst).1.status = 200 ∧
    (post_mcp regEmpty tEmpty 0 "fresh" reqInitFirst).1.session_header = some "fresh" ∧
    alget (post_mcp regEmpty tEmpty 0 "fresh" reqInitFirst).2.session_manager.sessions "fresh" =
      some { session_id := "fresh", created_at := 0, last_accessed := 0,
             client_info := [("user_agent", .str "UA"), ("client_ip", .str "127.0.0.1")],
             capabilities := .obj [], context := [] } ∧
    alget [("user_agent", JValue.str "UA"), ("client_ip", JValue.str "127.0.0.1")] "name" = none :=
  ⟨rfl, rfl, rfl, rfl⟩

/-- C2 amended: (a) when a live session is already bound via the session
header, `initialize` merges the params-supplied clientInfo into the stored
record (which afterwards contains that metadata); (b) on first contact (no
session header) the handler runs with no bound session, the params clientInfo
is discarded, and the created session's clientInfo holds only the
header-derived metadata (user agent, client IP, origin). -/
theorem initialize_client_info_amended :
    (∀ (reg : ToolRegistry) (t : HTTPTransport) (now : Int) (fresh_id sid : String)
       (s : Session) (req : HttpRequest) (bfields pfields ci cc : List (String × JValue)),
       alget req.headers "Mcp-Session-Id" = some sid → sid ≠ "" →
       req.body = .parsed (.obj bfields) →
       alget t.session_manager.sessions sid = some s → s.session_id = sid →
       ¬ now - s.last_accessed > t.session_manager.session_timeout →
       alget bfields "method" = some (.str "initialize") →
       validate_jsonrpc_request (.obj bfields) = none →
       alget bfields "params" = some (.obj pfields) →
       alget pfields "clientInfo" = some (.obj ci) →
       (alget pfields "capabilities").getD (.obj []) = .obj cc →
       (post_mcp reg t now fresh_id req).1.status = 200 ∧
       alget (post_mcp reg t now fresh_id req).2.session_manager.sessions sid =
         some (mergedInit s now ci cc)) ∧
    (∀ (reg : ToolRegistry) (t : HTTPTransport) (now : Int) (fresh_id : String)
       (req : HttpRequest) (bfields pfields cc : List (String × JValue)),
       alhas req.headers "Mcp-Session-Id" = false → req.verb ≠ "GET" →
       req.body = .parsed (.obj bfields) →
       alget bfields "method" = some (.str "initialize") →
       validate_jsonrpc_request (.obj bfields) = none →
       alget bfields "params" = some (.obj pfields) →
       (alget pfields "capabilities").getD (.obj []) = .obj cc →
       now - t.session_manager.last_cleanup < t.session_manager.cleanup_interval →
       (post_mcp reg t now fresh_id req).1.status = 200 ∧
       (post_mcp reg t now fresh_id req).1.session_header = some fresh_id ∧
       alget (post_mcp reg t now fresh_id req).2.session_manager.sessions fresh_id =
         some { session_id := fresh_id, created_at := now, last_accessed := now,
                client_info := extract_client_info_sync req,
                capabilities := .obj [], context := [] }) := by
  constructor
  · intro reg t now fresh_id sid s req bfields pfields ci cc hhdr hsid hbody hget
      hsidEq hlive hmethod hvalid hparams hci hcc
    rw [post_mcp_bound_initialize_eq reg t now fresh_id sid s req bfields pfields ci cc
      hhdr hsid hbody hget hsidEq hlive hmethod hvalid hparams hci hcc]
    exact ⟨rfl, by simp [alget_alset_self]⟩
  · intro reg t now fresh_id req bfields pfields cc hno hverb hbody hmethod hvalid
      hparams hcc hclean
    have hinit : is_initialization_request req = true := by
      simp [is_initialization_request, hverb, hno]
    simp [post_mcp, hinit, handle_mcp_request, hbody, hvalid, process_mcp_request,
          jget, hmethod, hparams, handle_initialize, hcc,
          SessionManager.create_session, SessionManager.cleanup_expired_sessions,
          hclean, alget_alset_self]

theorem initialize_client_info_amended_witness :
    ((post_mcp regEmpty tQ 5 "f" reqInitBound).1.status = 200 ∧
     alget (post_mcp regEmpty tQ 5 "f" reqInitBound).2.session_manager.sessions "sid-a" =
       some (mergedInit sessionA 5 [("name", JValue.str "X")] [])) ∧
    ((post_mcp regEmpty tEmpty 0 "fresh" reqInitFirst).1.status = 200 ∧
     (post_mcp regEmpty tEmpty 0 "fresh" reqInitFirst).1.session_header = some "fresh" ∧
     alget (post_mcp regEmpty tEmpty 0 "fresh" reqInitFirst).2.session_manager.sessions "fresh" =
       some { session_id := "fresh", created_at := 0, last_accessed := 0,
              client_info := extract_client_info_sync reqInitFirst,
              capabilities := .obj [], context := [] }) :=
  ⟨initialize_client_info_amended.1 regEmpty tQ 5 "f" "sid-a" sessionA reqInitBound
     _ _ _ _ rfl (by decide) rfl rfl rfl (by decide) rfl rfl rfl rfl rfl,
   initialize_client_info_amended.2 regEmpty tEmpty 0 "fresh" reqInitFirst
     _ _ _ rfl (by decide) rfl rfl rfl rfl rfl (by decide)⟩

/-- C5: a second `initialize` on a live bound session merges the client
metadata into the existing record without creating a second session — the
store's `count()` is unchanged by the call. -/
theorem initialize_rebinding_count_unchanged
    (reg : ToolRegistry) (t : HTTPTransport) (now : Int) (fresh_id sid : String)
    (s : Session) (req : HttpRequest)
    (bfields pfields ci cc : List (String × JValue))
    (hhdr : alget req.headers "Mcp-Session-Id" = some sid) (hsid : sid ≠ "")
    (hbody : req.body = .parsed (.obj bfields))
    (hget : alget t.session_manager.sessions sid = some s)
    (hsidEq : s.session_id = sid)
    (hlive : ¬ now - s.last_accessed > t.session_manager.session_timeout)
    (hmethod : alget bfields "method" = some (.str "initialize"))
    (hvalid : validate_jsonrpc_request (.obj bfields) = none)
    (hparams : alget bfields "params" = some (.obj pfields))
    (hci : alget pfields "clientInfo" = some (.obj ci))
    (hcc : (alget pfields "capabilities").getD (.obj []) = .obj cc) :
    (post_mcp reg t now fresh_id req).2.session_manager.get_session_count =
      t.session_manager.get_session_count := by
  rw [post_mcp_bound_initialize_eq reg t now fresh_id sid s req bfields pfields ci cc
    hhdr hsid hbody hget hsidEq hlive hmethod hvalid hparams hci hcc]
  have h1 : alhas t.session_manager.sessions sid = true := alhas_of_alget hget
  simp only [SessionManager.get_session_count]
  rw [alset_length_of_has _ _ _ (alhas_alset_self _ _ _),
      alset_length_of_has _ _ _ (alhas_alset_self _ _ _),
      alset_length_of_has _ _ _ h1]

theorem initialize_rebinding_count_unchanged_witness :
    (alget tQ.session_manager.sessions "sid-a" = some sessionA ∧
     alget reqInitBound.headers "Mcp-Session-Id" = some "sid-a" ∧
     ¬ (5 : Int) - sessionA.last_accessed > tQ.session_manager.session_timeout) ∧
    (post_mcp regEmpty tQ 5 "f" reqInitBound).2.session_manager.get_session_count =
      tQ.session_manager.get_session_count :=
  ⟨⟨rfl, rfl, by decide⟩,
   initialize_rebinding_count_unchanged regEmpty tQ 5 "f" "sid-a" sessionA
     reqInitBound _ _ _ _ rfl (by decide) rfl rfl rfl (by decide) rfl rfl rfl rfl rfl⟩

/-- The plain validator error bodies carry code -32600, a string message, and
no `id` key. -/
theorem invalidRequestError_props (msg : String) :
    isInvalidRequestErrorBody (invalidRequestError msg) = true ∧
    jget (invalidRequestError msg) "id" = none :=
  ⟨rfl, rfl⟩

/-- The params-shape error body carries code -32600, a string message, and the
echoed `id` (JSON null when the request had none). -/
theorem invalidRequestErrorWithId_props (idv : Option JValue) (msg : String) :
    isInvalidRequestErrorBody (invalidRequestErrorWithId idv msg) = true ∧
    jget (invalidRequestErrorWithId idv msg) "id" = some (idv.getD .null) :=
  ⟨rfl, rfl⟩

/-- C6 counterexample: an envelope with a bad protocol version and an `id`
present is rejected, but the error object does NOT echo the identifier — only
the params-shape violation branch attaches an `id` key. -/
theorem validator_id_echo_counterexample :
    jget envBadVersion "id" = some (.num 1) ∧
    validate_jsonrpc_request envBadVersion =
      some (invalidRequestError "Invalid Request: jsonrpc must be '2.0'") ∧
    jget (invalidRequestError "Invalid Request: jsonrpc must be '2.0'") "id" = none :=
  ⟨rfl, rfl, rfl⟩


/-- C6 amended: the validator is a pure function that, on any envelope-grammar
violation, returns a structured error object carrying the fixed invalid-request
code -32600 and a human-readable message; the request's identifier is echoed
only on the params-shape violation (where an `id` key is attached carrying the
request's id, JSON null if absent) — the other violation branches never echo
it; on a conforming envelope it returns the `none` sentinel. -/
theorem validator_amended (j : JValue) :
    (validate_jsonrpc_request j = none ↔ conformsEnvelope j = true) ∧
    (∀ e, validate_jsonrpc_request j = some e →
      isInvalidRequestErrorBody e = true ∧
      (jget e "id").isSome = isParamsViolation j ∧
      (isParamsViolation j = true → jget e "id" = some ((jget j "id").getD .null))) := by
  cases j with
  | null =>
    refine ⟨by simp [validate_jsonrpc_request, conformsEnvelope], ?_⟩
    intro e he
    simp [validate_jsonrpc_request] at he
    subst he
    simp [isParamsViolation, invalidRequestError, isInvalidRequestErrorBody, jget, alget]
  | bool b =>
    refine ⟨by simp [validate_jsonrpc_request, conformsEnvelope], ?_⟩
    intro e he
    simp [validate_jsonrpc_request] at he
    subst he
    simp [isParamsViolation, invalidRequestError, isInvalidRequestErrorBody, jget, alget]
  | num n =>
    refine ⟨by simp [validate_jsonrpc_request, conformsEnvelope], ?_⟩
    intro e he
    simp [validate_jsonrpc_request] at he
    subst he
    simp [isParamsViolation, invalidRequestError, isInvalidRequestErrorBody, jget, alget]
  | str s =>
    refine ⟨by simp [validate_jsonrpc_request, conformsEnvelope], ?_⟩
    intro e he
    simp [validate_jsonrpc_request] at he
    subst he
    simp [isParamsViolation, invalidRequestError, isInvalidRequestErrorBody, jget, alget]
  | arr xs =>
    refine ⟨by simp [validate_jsonrpc_request, conformsEnvelope], ?_⟩
    intro e he
    simp [validate_jsonrpc_request] at he
    subst he
    simp [isParamsViolation, invalidRequestError, isInvalidRequestErrorBody, jget, alget]
  | obj fields =>
    by_cases hc1 : (match alget fields "jsonrpc" with
                    | some (.str v) => v = "2.0" | _ => false) = true
    · rcases hm : alget fields "method" with _ | v
      · refine ⟨by simp [validate_jsonrpc_request, conformsEnvelope, hc1, hm], ?_⟩
        intro e he
        simp [validate_jsonrpc_request, hc1, hm] at he
        subst he
        simp [isParamsViolation, hc1, hm, invalidRequestError,
          isInvalidRequestErrorBody, jget, alget]
      · cases v with
        | str m =>
          by_cases hm0 : m = ""
          · subst hm0
            refine ⟨by simp [validate_jsonrpc_request, conformsEnvelope, hc1, hm], ?_⟩
            intro e he
            simp [validate_jsonrpc_request, hc1, hm] at he
            subst he
            simp [isParamsViolation, hc1, hm, invalidRequestError,
              isInvalidRequestErrorBody, jget, alget]
          · by_cases hid : (!strStartsWith m "notifications/" && !alhas fields "id") = true
            · have hid' : strStartsWith m "notifications/" = false ∧
                  alhas fields "id" = false := by
                simpa [Bool.and_eq_true, Bool.not_eq_true'] using hid
              refine ⟨by simp [validate_jsonrpc_request, conformsEnvelope, hc1, hm,
                hm0, hid'.1, hid'.2], ?_⟩
              intro e he
              simp [validate_jsonrpc_request, hc1, hm, hm0, hid] at he
              subst he
              simp [isParamsViolation, hc1, hm, hm0, hid'.1, hid'.2,
                invalidRequestError, isInvalidRequestErrorBody, jget, alget]
            · have hid' : strStartsWith m "notifications/" = true ∨
                  alhas fields "id" = true := by
                cases ha : strStartsWith m "notifications/" with
                | true => exact Or.inl rfl
                | false =>
                  cases hb : alhas fields "id" with
                  | true => exact Or.inr rfl
                  | false => exact absurd (by simp [ha, hb]) hid
              rcases hp : alget fields "params" with _ | pv
              · refine ⟨by rcases hid' with h | h <;>
                  simp [validate_jsonrpc_request, conformsEnvelope, hc1, hm,
                    hm0, hid, hp, h], ?_⟩
                intro e he
                simp [validate_jsonrpc_request, hc1, hm, hm0, hid, hp] at he
              · cases pv with
                | null =>
                  refine ⟨by rcases hid' with h | h <;>
                    simp [validate_jsonrpc_request, conformsEnvelope, hc1, hm,
                      hm0, hid, hp, h], ?_⟩
                  intro e he
                  simp [validate_jsonrpc_request, hc1, hm, hm0, hid, hp] at he
                | obj fs =>
                  refine ⟨by rcases hid' with h | h <;>
                    simp [validate_jsonrpc_request, conformsEnvelope, hc1, hm,
                      hm0, hid, hp, h], ?_⟩
                  intro e he
                  simp [validate_jsonrpc_request, hc1, hm, hm0, hid, hp] at he
                | arr ys =>
                  refine ⟨by rcases hid' with h | h <;>
                    simp [validate_jsonrpc_request, conformsEnvelope, hc1, hm,
                      hm0, hid, hp, h], ?_⟩
                  intro e he
                  simp [validate_jsonrpc_request, hc1, hm, hm0, hid, hp] at he
                | bool b =>
                  refine ⟨by simp [validate_jsonrpc_request, conformsEnvelope, hc1, hm,
                    hm0, hid, hp], ?_⟩
                  intro e he
                  simp [validate_jsonrpc_request, hc1, hm, hm0, hid, hp] at he
                  subst he
                  refine ⟨rfl, ?_, ?_⟩
                  · rcases hid' with h | h <;>
                      simp [isParamsViolation, hc1, hm, hm0, hp, h,
                        invalidRequestErrorWithId, jget, alget]
                  · intro _
                    simp [invalidRequestErrorWithId, jget, alget]
                | num n =>
                  refine ⟨by simp [validate_jsonrpc_request, conformsEnvelope, hc1, hm,
                    hm0, hid, hp], ?_⟩
                  intro e he
                  simp [validate_jsonrpc_request, hc1, hm, hm0, hid, hp] at he
                  subst he
                  refine ⟨rfl, ?_, ?_⟩
                  · rcases hid' with h | h <;>
                      simp [isParamsViolation, hc1, hm, hm0, hp, h,
                        invalidRequestErrorWithId, jget, alget]
                  · intro _
                    simp [invalidRequestErrorWithId, jget, alget]
                | str s =>
                  refine ⟨by simp [validate_jsonrpc_request, conformsEnvelope, hc1, hm,
                    hm0, hid, hp], ?_⟩
                  intro e he
                  simp [validate_jsonrpc_request, hc1, hm, hm0, hid, hp] at he
                  subst he
                  refine ⟨rfl, ?_, ?_⟩
                  · rcases hid' with h | h <;>
                      simp [isParamsViolation, hc1, hm, hm0, hp, h,
                        invalidRequestErrorWithId, jget, alget]
                  · intro _
                    simp [invalidRequestErrorWithId, jget, alget]
        | null =>
          refine ⟨by simp [validate_jsonrpc_request, conformsEnvelope, hc1, hm], ?_⟩
          intro e he
          simp [validate_jsonrpc_request, hc1, hm] at he
          subst he
          simp [isParamsViolation, hc1, hm, invalidRequestError,
            isInvalidRequestErrorBody, jget, alget]
        | bool b =>
          refine ⟨by simp [validate_jsonrpc_request, conformsEnvelope, hc1, hm], ?_⟩
          intro e he
          simp [validate_jsonrpc_request, hc1, hm] at he
          subst he
          simp [isParamsViolation, hc1, hm, invalidRequestError,
            isInvalidRequestErrorBody, jget, alget]
        | num n =>
          refine ⟨by simp [validate_jsonrpc_request, conformsEnvelope, hc1, hm], ?_⟩
          intro e he
          simp [validate_jsonrpc_request, hc1, hm] at he
          subst he
          simp [isParamsViolation, hc1, hm, invalidRequestError,
            isInvalidRequestErrorBody, jget, alget]
        | arr ys =>
          refine ⟨by simp [validate_jsonrpc_request, conformsEnvelope, hc1, hm], ?_⟩
          intro e he
          simp [validate_jsonrpc_request, hc1, hm] at he
          subst he
          simp [isParamsViolation, hc1, hm, invalidRequestError,
            isInvalidRequestErrorBody, jget, alget]
        | obj fs =>
          refine ⟨by simp [validate_jsonrpc_request, conformsEnvelope, hc1, hm], ?_⟩
          intro e he
          simp [validate_jsonrpc_request, hc1, hm] at he
          subst he
          simp [isParamsViolation, hc1, hm, invalidRequestError,
            isInvalidRequestErrorBody, jget, alget]
    · refine ⟨by simp [validate_jsonrpc_request, conformsEnvelope, hc1], ?_⟩
      intro e he
      simp [validate_jsonrpc_request, hc1] at he
      subst he
      simp [isParamsViolation, hc1, invalidRequestError,
        isInvalidRequestErrorBody, jget, alget]

theorem validator_amended_witness :
    (validate_jsonrpc_request envBadVersion =
       some (invalidRequestError "Invalid Request: jsonrpc must be '2.0'")) ∧
    isInvalidRequestErrorBody
      (invalidRequestError "Invalid Request: jsonrpc must be '2.0'") = true ∧
    (jget (invalidRequestError "Invalid Request: jsonrpc must be '2.0'") "id").isSome =
      isParamsViolation envBadVersion := by
  have h := (validator_amended envBadVersion).2
    (invalidRequestError "Invalid Request: jsonrpc must be '2.0'") rfl
  exact ⟨rfl, h.1, h.2.1⟩

/-- Every base64url alphabet character is URL-safe. -/
theorem sextetChar_urlsafe : ∀ n : Nat, n < 64 → urlSafeChar (sextetChar n) = true := by
  decide

/-- Alphabet characters are never the `'='` padding. -/
theorem sextetChar_ne_pad (n : Nat) (h : n < 64) : sextetChar n ≠ '=' := by
  intro hc
  have h2 := sextetChar_urlsafe n h
  rw [hc] at h2
  simp [urlSafeChar] at h2

/-- Length of a base64url encoding (with padding). -/
theorem b64urlEncode_length (l : List Nat) :
    (b64urlEncode l).length = (l.length + 2) / 3 * 4 := by
  induction l using b64urlEncode.induct with
  | case1 => simp [b64urlEncode]
  | case2 b1 => simp [b64urlEncode]
  | case3 b1 b2 => simp [b64urlEncode]
  | case4 b1 b2 b3 rest ih =>
    simp [b64urlEncode, ih]
    omega

/-- Encoding whole 3-byte blocks yields only alphabet characters. -/
theorem b64urlEncode_chars_full (l : List Nat) (h3 : l.length % 3 = 0)
    (hb : ∀ b ∈ l, b < 256) :
    ∀ c ∈ b64urlEncode l, ∃ n, n < 64 ∧ c = sextetChar n := by
  induction l using b64urlEncode.induct with
  | case1 => simp [b64urlEncode]
  | case2 b1 => simp at h3
  | case3 b1 b2 => simp at h3
  | case4 b1 b2 b3 rest ih =>
    intro c hc
    have hb1 : b1 < 256 := hb b1 (by simp)
    have hb2 : b2 < 256 := hb b2 (by simp)
    have hb3 : b3 < 256 := hb b3 (by simp)
    have h3' : rest.length % 3 = 0 := by simp at h3; omega
    have hb' : ∀ b ∈ rest, b < 256 := fun b hbm => hb b (by simp [hbm])
    simp only [b64urlEncode, List.mem_cons] at hc
    rcases hc with rfl | rfl | rfl | rfl | hc
    · exact ⟨b1 / 4, by omega, rfl⟩
    · exact ⟨b1 % 4 * 16 + b2 / 16, by omega, rfl⟩
    · exact ⟨b2 % 16 * 4 + b3 / 64, by omega, rfl⟩
    · exact ⟨b3 % 64, by omega, rfl⟩
    · exact ih h3' hb' c hc

/-- Appending one byte after whole blocks appends one padded 4-character
block. -/
theorem b64urlEncode_append_block (l : List Nat) (b : Nat) (h3 : l.length % 3 = 0) :
    b64urlEncode (l ++ [b]) =
      b64urlEncode l ++ [sextetChar (b / 4), sextetChar (b % 4 * 16), '=', '='] := by
  induction l using b64urlEncode.induct with
  | case1 => simp [b64urlEncode]
  | case2 b1 => simp at h3
  | case3 b1 b2 => simp at h3
  | case4 b1 b2 b3 rest ih =>
    have h3' : rest.length % 3 = 0 := by simp at h3; omega
    simp [b64urlEncode, ih h3']

/-- Stripping the two-character padding. -/
theorem rstripEq_append_block (xs : List Char) (c1 c2 : Char) (h : c2 ≠ '=') :
    rstripEq (xs ++ [c1, c2, '=', '=']) = xs ++ [c1, c2] := by
  simp [rstripEq, List.dropWhile, h]

/-- A lowercase-hex character's code point is a single byte. -/
theorem lowercaseHexChar_toNat_lt (c : Char) (h : lowercaseHexChar c = true) :
    c.toNat < 256 := by
  have h' : c ∈ "0123456789abcdef".toList := by
    simpa [lowercaseHexChar] using h
  fin_cases h' <;> decide

/-- C7: every identifier produced by `generate_session_id` (from a
64-character lowercase-hex SHA-256 digest) consists only of URL-safe
printable characters (letters, digits, `-`, `_`) and has length 86 — within
the spec's rough 20..100 band. -/
theorem generate_session_id_urlsafe (hexdigest : String)
    (hlen : hexdigest.length = 64)
    (hhex : ∀ c ∈ hexdigest.toList, lowercaseHexChar c = true) :
    (generate_session_id hexdigest).length = 86 ∧
    20 ≤ (generate_session_id hexdigest).length ∧
    (generate_session_id hexdigest).length ≤ 100 ∧
    ∀ c ∈ (generate_session_id hexdigest).toList, urlSafeChar c = true := by
  have hl : (hexdigest.toList.map Char.toNat).length = 64 := by
    rw [List.length_map]
    exact hlen
  set l : List Nat := hexdigest.toList.map Char.toNat with hldef
  have hball : ∀ b ∈ l, b < 256 := by
    intro b hb
    rcases List.mem_map.1 hb with ⟨c, hc, rfl⟩
    exact lowercaseHexChar_toNat_lt c (hhex c hc)
  have hlen1 : (l.take 63).length = 63 := by rw [List.length_take]; omega
  have hlen2 : (l.drop 63).length = 1 := by rw [List.length_drop]; omega
  obtain ⟨b, hbdrop⟩ := List.length_eq_one.1 hlen2
  have hsplit : l = l.take 63 ++ [b] := by
    conv_lhs => rw [← List.take_append_drop 63 l]
    rw [hbdrop]
  have hbmem : b ∈ l := by rw [hsplit]; simp
  have hb256 : b < 256 := hball b hbmem
  have htake : ∀ x ∈ l.take 63, x < 256 := fun x hx => hball x (List.mem_of_mem_take hx)
  have henc : b64urlEncode l =
      b64urlEncode (l.take 63) ++
        [sextetChar (b / 4), sextetChar (b % 4 * 16), '=', '='] := by
    conv_lhs => rw [hsplit]
    exact b64urlEncode_append_block _ b (by rw [hlen1])
  have hgen : generate_session_id hexdigest =
      ⟨b64urlEncode (l.take 63) ++ [sextetChar (b / 4), sextetChar (b % 4 * 16)]⟩ := by
    unfold generate_session_id
    rw [← hldef, henc, rstripEq_append_block _ _ _ (sextetChar_ne_pad _ (by omega))]
  have hlenenc : (b64urlEncode (l.take 63)).length = 84 := by
    rw [b64urlEncode_length, hlen1]
  have hlength : (generate_session_id hexdigest).length = 86 := by
    rw [hgen]
    show (b64urlEncode (l.take 63) ++
      [sextetChar (b / 4), sextetChar (b % 4 * 16)]).length = 86
    rw [List.length_append, hlenenc]
    rfl
  refine ⟨hlength, by omega, by omega, ?_⟩
  intro c hc
  rw [hgen] at hc
  have hc' : c ∈ b64urlEncode (l.take 63) ++
      [sextetChar (b / 4), sextetChar (b % 4 * 16)] := hc
  rcases List.mem_append.1 hc' with hcl | hcr
  · obtain ⟨n, hn, rfl⟩ := b64urlEncode_chars_full (l.take 63) (by rw [hlen1]) htake c hcl
    exact sextetChar_urlsafe n hn
  · rcases List.mem_cons.1 hcr with rfl | hcr2
    · exact sextetChar_urlsafe _ (by omega)
    · rcases List.mem_cons.1 hcr2 with rfl | hcr3
      · exact sextetChar_urlsafe _ (by omega)
      · simp at hcr3

theorem generate_session_id_urlsafe_witness :
    (hexW.length = 64 ∧ ∀ c ∈ hexW.toList, lowercaseHexChar c = true) ∧
    ((generate_session_id hexW).length = 86 ∧
     20 ≤ (generate_session_id hexW).length ∧
     (generate_session_id hexW).length ≤ 100 ∧
     ∀ c ∈ (generate_session_id hexW).toList, urlSafeChar c = true) :=
  ⟨⟨rfl, by decide⟩, generate_session_id_urlsafe hexW rfl (by decide)⟩
